import Mathlib

/-!
# Verification of the mastoBot core

Shallow embedding of the mastoBot repository's core logic
(`src/mastoBot/mastoBot.py`): the policy decision engine
(`shouldReblog`, `shouldFavorite`, `containsMedia`, `containsAltText`,
`isParentStatus`, `isByFollower`, `isFollower`), the local key-value
store (`localStoreSet`, `localStoreGet`, `localStoreMerge`,
`localStoreKeyGetAll`, `localStoreObjectGetAll`), the notification
dispatcher (`_process_notifications`), the exception boundary
(`handleMastodonExceptions`) and the `run` loop.

Python dictionaries with string keys are modelled as insertion-ordered
association lists; Python truthiness of optional values is modelled
explicitly (`None` and empty strings are falsy).
-/

namespace MastoBot

/-! ## Data model (from `StatusDict` and the fields the code reads) -/

/-- One entry of `media_attachments`: the code reads only
`media_attachment.get('description', None)`. -/
structure MediaAttachment where
  description : Option String
deriving DecidableEq, Repr

/-- The fields of a status that the decision functions read:
`in_reply_to_id` (absent modelled as `none`), the author's account id,
and the `media_attachments` list. -/
structure Status where
  in_reply_to_id : Option Nat
  account : Nat
  media_attachments : List MediaAttachment
deriving DecidableEq, Repr

/-- A named policy section of the configuration.  The code reads the
options with `.get(...)`, so an absent key behaves as `False`; we model
each option directly as a `Bool`. -/
structure PolicyConfig where
  followers_only : Bool
  parents_only : Bool
  alt_text_required : Bool
deriving DecidableEq, Repr

/-- The two named policy sections the decision functions read:
`self.config["boosts"]` and `self.config["favourites"]`. -/
structure BotConfig where
  boosts : PolicyConfig
  favourites : PolicyConfig
deriving DecidableEq, Repr

/-- The remote API as the decision functions observe it:
`getStatus(status_id)` (assumed to succeed, returning the status) and
the derived relationship fact `relationships[0].get("followed_by", False)`
for an account id. -/
structure ApiEnv where
  statuses : Nat → Status
  followed_by : Nat → Bool

/-- Python truthiness of an optional integer (`if in_reply_to_id:`):
`None` and `0` are falsy. -/
def optNatTruthy : Option Nat → Bool
  | none => false
  | some n => n != 0

/-- Python truthiness of an optional string (`if not description:`):
`None` and the empty string are falsy. -/
def optStrTruthy : Option String → Bool
  | none => false
  | some s => s != ""

/-! ## Policy engine (lines 594-752 of `mastoBot.py`) -/

/-- `isParentStatus` (lines 594-610): fetch the status, read
`in_reply_to_id` with default `None`; truthy means the status is a
reply, hence not a parent. -/
def isParentStatus (env : ApiEnv) (status_id : Nat) : Bool :=
  if optNatTruthy (env.statuses status_id).in_reply_to_id then false else true

/-- `isFollower` (lines 625-637): query the relationship between the
bot and the account and read `followed_by`. -/
def isFollower (env : ApiEnv) (account_id : Nat) : Bool :=
  env.followed_by account_id

/-- `isByFollower` (lines 612-623): fetch the status and test whether
its author follows the bot. -/
def isByFollower (env : ApiEnv) (status_id : Nat) : Bool :=
  isFollower env (env.statuses status_id).account

/-- `containsMedia` (lines 722-726): the status has at least one media
attachment. -/
def containsMedia (env : ApiEnv) (status_id : Nat) : Bool :=
  (env.statuses status_id).media_attachments.length > 0

/-- `containsAltText` (lines 728-741): returns `False` when the status
has no media at all; otherwise `False` as soon as one attachment's
description is falsy (`None` or empty), `True` when every description
is truthy. -/
def containsAltText (env : ApiEnv) (status_id : Nat) : Bool :=
  if !containsMedia env status_id then false
  else (env.statuses status_id).media_attachments.all
    (fun media_attachment => optStrTruthy media_attachment.description)

/-- `shouldReblog` (lines 666-692), reading `self.config["boosts"]`. -/
def shouldReblog (env : ApiEnv) (config : BotConfig) (status_id : Nat) : Bool :=
  let boostConfig := config.boosts
  let isFollower := isByFollower env status_id
  let isFollowerRequired := boostConfig.followers_only
  let isParent := isParentStatus env status_id
  let isParentRequired := boostConfig.parents_only
  let hasMedia := containsMedia env status_id
  let hasAltText := containsAltText env status_id
  let altTextRequired := boostConfig.alt_text_required
  if isFollowerRequired && !isFollower then false
  else if isParentRequired && !isParent then false
  else if hasMedia && altTextRequired then hasAltText
  else true

/-- `shouldFavorite` (lines 694-720), reading `self.config["favourites"]`;
textually the same gate sequence as `shouldReblog`. -/
def shouldFavorite (env : ApiEnv) (config : BotConfig) (status_id : Nat) : Bool :=
  let favouriteConfig := config.favourites
  let isFollower := isByFollower env status_id
  let isFollowerRequired := favouriteConfig.followers_only
  let isParent := isParentStatus env status_id
  let isParentRequired := favouriteConfig.parents_only
  let hasMedia := containsMedia env status_id
  let hasAltText := containsAltText env status_id
  let altTextRequired := favouriteConfig.alt_text_required
  if isFollowerRequired && !isFollower then false
  else if isParentRequired && !isParent then false
  else if hasMedia && altTextRequired then hasAltText
  else true

/-- The spec's deficiency kinds (currently only missing alt text). -/
inductive DeficiencyKind
  | MissingAltText
deriving DecidableEq, Repr

/-- The spec's decision record `{act, deficiency}`. -/
structure Decision where
  act : Bool
  deficiency : Option DeficiencyKind
deriving DecidableEq, Repr

/-- Modelled from the spec: the spec's `decide(statusId, policyConfig)`
returns a record `{act: bool, deficiency: optional DeficiencyKind}`
(spec section 4.2, gates 1-4); the source's `shouldReblog` and
`shouldFavorite` return only the boolean `act` and no deficiency value
exists in the source.  The gates follow the spec's evaluation order. -/
def decideSpec (env : ApiEnv) (policyConfig : PolicyConfig) (status_id : Nat) : Decision :=
  if policyConfig.followers_only && !isByFollower env status_id then
    ⟨false, none⟩
  else if policyConfig.parents_only && optNatTruthy (env.statuses status_id).in_reply_to_id then
    ⟨false, none⟩
  else if containsMedia env status_id && policyConfig.alt_text_required
      && !containsAltText env status_id then
    ⟨false, some .MissingAltText⟩
  else
    ⟨true, none⟩

/-! ## Local key-value store (lines 274-393 of `mastoBot.py`)

The Redis JSON backend is modelled as an insertion-ordered association
list from full key strings to documents; documents are themselves
insertion-ordered association lists (Python dicts with string keys). -/

/-- A JSON-compatible document: a Python dict with string keys. -/
abbrev Doc := List (String × Int)

/-- Python dict item assignment `d[k] = v`: replace in place when the
key is present, append otherwise. -/
def dictAssign : Doc → String → Int → Doc
  | [], k, v => [(k, v)]
  | kv :: rest, k, v =>
    if kv.1 == k then (kv.1, v) :: rest else kv :: dictAssign rest k v

/-- Python `current.update(new_data)`: shallow key-wise overwrite of
`new_data` onto `current`, in `new_data`'s order. -/
def dictUpdate (current new_data : Doc) : Doc :=
  new_data.foldl (fun acc kv => dictAssign acc kv.1 kv.2) current

/-- The Redis backend state: full key string to stored document. -/
abbrev RedisStore := List (String × Doc)

/-- `r.json().set(k, "$", v)`: overwrite-whole-document at key `k`
(Redis keys are unique, so the backend is a map from keys to values;
setting replaces the value at an existing key and otherwise adds the
key). -/
def redisJsonSet : RedisStore → String → Doc → RedisStore
  | [], k, v => [(k, v)]
  | kv :: rest, k, v =>
    if kv.1 == k then (kv.1, v) :: rest else kv :: redisJsonSet rest k v

/-- `r.json().get(k)`: the stored document, or `None` when absent. -/
def redisJsonGet (st : RedisStore) (k : String) : Option Doc :=
  match st with
  | [] => none
  | kv :: rest => if kv.1 == k then some kv.2 else redisJsonGet rest k

/-- `localStoreSet` (lines 276-289): `r.json().set(f"{key}:{id}", "$", data)`. -/
def localStoreSet (st : RedisStore) (key id : String) (data : Doc) : RedisStore :=
  redisJsonSet st (key ++ ":" ++ id) data

/-- `localStoreGet` (lines 291-306): `r.json().get(f"{key}:{id}")`. -/
def localStoreGet (st : RedisStore) (key id : String) : Option Doc :=
  redisJsonGet st (key ++ ":" ++ id)

/-- `localStoreMerge` (lines 308-323): read the current document,
`current.update(new_data)`, write the result back.  When the key is
absent the read yields `None` and `None.update` raises, modelled as
`none`. -/
def localStoreMerge (st : RedisStore) (key id : String) (new_data : Doc) :
    Option RedisStore :=
  match redisJsonGet st (key ++ ":" ++ id) with
  | none => none
  | some current =>
    some (redisJsonSet st (key ++ ":" ++ id) (dictUpdate current new_data))

/-- The full keys present in the backend, in insertion order. -/
def storeKeys (st : RedisStore) : List String :=
  st.map (fun kv => kv.1)

/-- Whether a stored key matches the scan pattern `f"{key}:*"`. -/
def matchesKeyPattern (key k : String) : Bool :=
  (key ++ ":").data.isPrefixOf k.data

/-- One call of Redis `SCAN cursor MATCH key:*`, modelled on a backend
that serves the matching keys in pages: the cursor is a page index, the
call returns the next cursor (`0` after the last page, the initial
sentinel) and the page at the current index. -/
def redisScan (pages : List (List String)) (cursor : Nat) : Nat × List String :=
  (if cursor + 1 < pages.length then cursor + 1 else 0, pages.getD cursor [])

/-- The `while True` scan loop of `localStoreKeyGetAll`, with fuel for
termination (the cursor walks the page indices so `pages.length + 1`
calls always suffice). -/
def scanLoop (pages : List (List String)) : Nat → Nat → List String → List String
  | 0, _, keys => keys
  | fuel + 1, cursor, keys =>
    let step := redisScan pages cursor
    let keys' := keys ++ step.2
    if step.1 == 0 then keys' else scanLoop pages fuel step.1 keys'

/-- `localStoreKeyGetAll` (lines 351-372): start at cursor `0`, extend
`keys` with each page, stop when the cursor returns to `0`. -/
def localStoreKeyGetAll (pages : List (List String)) : List String :=
  scanLoop pages (pages.length + 1) 0 []

/-- The backend's pagination serves exactly the keys matching
`f"{key}:*"`, across however many pages it chooses. -/
abbrev ValidPagination (st : RedisStore) (key : String) (pages : List (List String)) : Prop :=
  pages.flatten = (storeKeys st).filter (matchesKeyPattern key)

/-- Python `s.split(":")`, accumulator over the characters. -/
def pySplitColonAux : List Char → List Char → List (List Char)
  | [], acc => [acc.reverse]
  | c :: cs, acc =>
    if c = ':' then acc.reverse :: pySplitColonAux cs []
    else pySplitColonAux cs (c :: acc)

/-- Python `k.split(":")` on a string. -/
def pySplitColon (s : String) : List String :=
  (pySplitColonAux s.data []).map String.mk

/-- The loop body of `localStoreObjectGetAll`: for each key,
`_key, _id = k.split(":")` (raises `ValueError`, modelled `none`, when
the split does not have exactly two parts), then `localStoreGet`. -/
def objectsFromKeys (st : RedisStore) : List String → Option (List (Option Doc))
  | [] => some []
  | k :: ks =>
    match pySplitColon k with
    | [a, b] => (objectsFromKeys st ks).map (fun objects => localStoreGet st a b :: objects)
    | _ => none

/-- `localStoreObjectGetAll` (lines 374-393): enumerate the keys via
the scan loop, split each on `":"` and fetch the document. -/
def localStoreObjectGetAll (st : RedisStore) (pages : List (List String)) :
    Option (List (Option Doc)) :=
  objectsFromKeys st (localStoreKeyGetAll pages)

/-! ## Exception boundary (`handleMastodonExceptions`, lines 169-197) -/

/-- The eight Mastodon.py exception classes caught by the boundary, in
the order of the `except` clauses. -/
inductive MastodonError
  | serverError
  | illegalArgumentError
  | fileNotFoundError
  | networkError
  | apiError
  | malformedEventError
  | ratelimitError
  | versionError
deriving DecidableEq, Repr

/-- An exception raised by wrapped code: one of the eight known remote
categories, or anything outside the taxonomy. -/
inductive PyError
  | mastodon (e : MastodonError)
  | unclassified
deriving DecidableEq, Repr

/-- `handleMastodonExceptions` (lines 169-197): run the wrapped
operation; on success return its result; on one of the eight known
Mastodon exceptions log and fall through, so the wrapper returns `None`
(no result, no exception); on any other exception log and `raise e`. -/
def handleMastodonExceptions {α : Type} (func : Unit → Except PyError α) :
    Except PyError (Option α) :=
  match func () with
  | .ok result => .ok (some result)
  | .error (.mastodon _) => .ok none
  | .error .unclassified => .error .unclassified

/-! ## Notification dispatcher (`_process_notifications`, lines 409-431) -/

/-- A fetched event: the dispatcher reads `notification.get("type")`
and handlers receive the whole notification (we keep its id). -/
structure Notification where
  type : Option String
  id : Nat
deriving DecidableEq, Repr

/-- The per-kind handlers (`processMention`, ..., `processUpdate`),
implemented by the subclass; each may raise. -/
structure Handlers where
  processMention : Notification → Except PyError Unit
  processReblog : Notification → Except PyError Unit
  processFavourite : Notification → Except PyError Unit
  processFollow : Notification → Except PyError Unit
  processPoll : Notification → Except PyError Unit
  processFollowRequest : Notification → Except PyError Unit
  processUpdate : Notification → Except PyError Unit

/-- The `match notification.get("type")` dispatch of one event; an
unrecognised type is logged as a warning and skipped. -/
def dispatchOne (h : Handlers) (n : Notification) : Except PyError Unit :=
  match n.type with
  | some "mention" => h.processMention n
  | some "reblog" => h.processReblog n
  | some "favourite" => h.processFavourite n
  | some "follow" => h.processFollow n
  | some "poll" => h.processPoll n
  | some "follow_request" => h.processFollowRequest n
  | some "update" => h.processUpdate n
  | _ => .ok ()

/-- The `for notification in notifications` loop body of
`_process_notifications`: there is no per-event `try`, so the first
handler exception propagates out of the loop. -/
def dispatchLoop (h : Handlers) : List Notification → Except PyError Unit
  | [] => .ok ()
  | n :: rest =>
    match dispatchOne h n with
    | .error e => .error e
    | .ok _ => dispatchLoop h rest

/-- The same loop, observing which event ids were handled before the
loop ended, and the exception (if any) that ended it. -/
def dispatchHandled (h : Handlers) : List Notification → List Nat × Option PyError
  | [] => ([], none)
  | n :: rest =>
    match dispatchOne h n with
    | .error e => ([], some e)
    | .ok _ =>
      let t := dispatchHandled h rest
      (n.id :: t.1, t.2)

/-- `_process_notifications` as called: the loop wrapped by the
`@handleMastodonExceptions` decorator (the method returns no value, so
a successful run yields `Unit`). -/
def process_notifications (h : Handlers) (batch : List Notification) :
    Except PyError (Option Unit) :=
  handleMastodonExceptions (fun _ => dispatchLoop h batch)

/-! ## The `run` loop (lines 267-272) -/

/-- One observable action of an iteration of `run`. -/
inductive RunAction
  | fetchNotifications
  | processNotifications
  | sleep (seconds : Nat)
deriving DecidableEq, Repr

/-- The bot configuration as a flat mapping from option names to
integer values (sufficient to model a hypothetical refresh-interval
entry). -/
abbrev BotOptions := List (String × Int)

/-- One iteration of the `while True` body of `run` (lines 268-272):
fetch, process, then `await asyncio.sleep(10)` — the literal `10` is
hardcoded at the call site and no configuration value is consulted. -/
def runIteration (_config : BotOptions) : List RunAction :=
  [.fetchNotifications, .processNotifications, .sleep 10]

/-- Configuration-time acceptance in `MastoBot.__init__`
(lines 224-265): the constructor reads `access_token`, `api_base_url`,
`api.timeout` (default 10) and the Redis host/port (with defaults); it
never reads or validates a refresh-interval option, so every
configuration value is accepted. -/
def initAcceptsConfig (_config : BotOptions) : Bool :=
  true

/-! ## Helper lemmas about the policy engine -/

theorem not_isParentStatus (env : ApiEnv) (status_id : Nat) :
    (!isParentStatus env status_id) = optNatTruthy (env.statuses status_id).in_reply_to_id := by
  unfold isParentStatus
  cases optNatTruthy (env.statuses status_id).in_reply_to_id <;> simp

theorem containsMedia_eq_true_iff (env : ApiEnv) (status_id : Nat) :
    containsMedia env status_id = true ↔ (env.statuses status_id).media_attachments ≠ [] := by
  simp only [containsMedia, decide_eq_true_eq, gt_iff_lt]
  exact List.length_pos

theorem containsAltText_eq_all (env : ApiEnv) (status_id : Nat)
    (h : (env.statuses status_id).media_attachments ≠ []) :
    containsAltText env status_id =
      (env.statuses status_id).media_attachments.all
        (fun media_attachment => optStrTruthy media_attachment.description) := by
  have hm : containsMedia env status_id = true := (containsMedia_eq_true_iff env status_id).2 h
  simp [containsAltText, hm]

/-! ## Concrete instances used by witnesses -/

/-- A remote environment: every status is a reply by account `7` with
one described attachment, and nobody follows the bot. -/
def envNonFollower : ApiEnv where
  statuses := fun _ => ⟨some 5, 7, [⟨some "cat"⟩]⟩
  followed_by := fun _ => false

/-- A remote environment: every status is a parentless post by account
`7`, who follows the bot, with two attachments of which one has an
empty description. -/
def envFollowerBadAlt : ApiEnv where
  statuses := fun _ => ⟨none, 7, [⟨some "cat"⟩, ⟨some ""⟩]⟩
  followed_by := fun _ => true

/-- A remote environment: every status is a parentless post by account
`7`, who follows the bot, with no media attachments. -/
def envFollowerNoMedia : ApiEnv where
  statuses := fun _ => ⟨none, 7, []⟩
  followed_by := fun _ => true

/-- A configuration with every gate enabled in both policies. -/
def cfgAllOn : BotConfig := ⟨⟨true, true, true⟩, ⟨true, true, true⟩⟩

/-! ## Claim theorems: the policy engine -/

/-- **C2**: for every status and policy configuration with
`followers_only = true`, when the status's author is not a follower of
the bot account, `shouldReblog` (under the `boosts` policy) and
`shouldFavorite` (under the `favourites` policy) return `false`,
regardless of the status's parent, media, or alt-text fields. -/
theorem followers_only_gate (env : ApiEnv) (cfg : BotConfig) (status_id : Nat)
    (hnf : isByFollower env status_id = false) :
    (cfg.boosts.followers_only = true → shouldReblog env cfg status_id = false) ∧
    (cfg.favourites.followers_only = true → shouldFavorite env cfg status_id = false) := by
  constructor <;> intro hreq <;> simp [shouldReblog, shouldFavorite, hreq, hnf]

/-- Witness for C2 at a concrete non-follower environment. -/
theorem followers_only_gate_witness :
    shouldReblog envNonFollower cfgAllOn 3 = false ∧
    shouldFavorite envNonFollower cfgAllOn 3 = false :=
  ⟨(followers_only_gate envNonFollower cfgAllOn 3 rfl).1 rfl,
   (followers_only_gate envNonFollower cfgAllOn 3 rfl).2 rfl⟩

/-- **C5**: `shouldReblog` (evaluated against the `boosts`
configuration) and `shouldFavorite` (evaluated against the
`favourites` configuration) compute the identical decision algorithm:
with equal option values and the same status attributes they return
equal results. -/
theorem shouldReblog_eq_shouldFavorite (env : ApiEnv) (cfg : BotConfig) (status_id : Nat)
    (h : cfg.boosts = cfg.favourites) :
    shouldReblog env cfg status_id = shouldFavorite env cfg status_id := by
  simp only [shouldReblog, shouldFavorite, h]

/-- Witness for C5 at a concrete environment and configuration. -/
theorem shouldReblog_eq_shouldFavorite_witness :
    shouldReblog envFollowerBadAlt cfgAllOn 3 = shouldFavorite envFollowerBadAlt cfgAllOn 3 :=
  shouldReblog_eq_shouldFavorite envFollowerBadAlt cfgAllOn 3 rfl

/-- **C10**: for a status with zero media attachments `containsAltText`
returns `false` (not a vacuous `true`), yet the decision of
`shouldReblog`/`shouldFavorite` is unaffected: the alt-text gate is
only consulted when `containsMedia` is true, so the decision reduces to
the follower and parent gates alone (in particular a media-free status
passes the alt-text gate). -/
theorem containsAltText_no_media (env : ApiEnv) (cfg : BotConfig) (status_id : Nat)
    (hm : (env.statuses status_id).media_attachments = []) :
    containsAltText env status_id = false ∧
    shouldReblog env cfg status_id =
      (!(cfg.boosts.followers_only && !isByFollower env status_id) &&
       !(cfg.boosts.parents_only && !isParentStatus env status_id)) ∧
    shouldFavorite env cfg status_id =
      (!(cfg.favourites.followers_only && !isByFollower env status_id) &&
       !(cfg.favourites.parents_only && !isParentStatus env status_id)) := by
  have hcm : containsMedia env status_id = false := by
    simp [containsMedia, hm]
  refine ⟨by simp [containsAltText, hcm], ?_, ?_⟩
  · simp only [shouldReblog, hcm, Bool.false_and]
    cases h1 : cfg.boosts.followers_only && !isByFollower env status_id <;>
      cases h2 : cfg.boosts.parents_only && !isParentStatus env status_id <;> simp
  · simp only [shouldFavorite, hcm, Bool.false_and]
    cases h1 : cfg.favourites.followers_only && !isByFollower env status_id <;>
      cases h2 : cfg.favourites.parents_only && !isParentStatus env status_id <;> simp

/-- Witness for C10 at a concrete media-free status. -/
theorem containsAltText_no_media_witness :
    containsAltText envFollowerNoMedia 3 = false ∧
    shouldReblog envFollowerNoMedia cfgAllOn 3 =
      (!(cfgAllOn.boosts.followers_only && !isByFollower envFollowerNoMedia 3) &&
       !(cfgAllOn.boosts.parents_only && !isParentStatus envFollowerNoMedia 3)) ∧
    shouldFavorite envFollowerNoMedia cfgAllOn 3 =
      (!(cfgAllOn.favourites.followers_only && !isByFollower envFollowerNoMedia 3) &&
       !(cfgAllOn.favourites.parents_only && !isParentStatus envFollowerNoMedia 3)) :=
  containsAltText_no_media envFollowerNoMedia cfgAllOn 3 rfl

/-- **C1**: for every status with at least one media attachment, under
a policy with `alt_text_required = true` and the follower and parent
gates passing, `shouldReblog`/`shouldFavorite` return `true` iff every
attachment has a non-empty description; when some attachment's
description is empty or absent they return `false` and the spec's
`decide` reports `deficiency = MissingAltText`; and the spec-modelled
`decide`'s `act` agrees with the source's `shouldReblog`. -/
theorem alt_text_gate (env : ApiEnv) (pc : PolicyConfig) (status_id : Nat)
    (hmedia : (env.statuses status_id).media_attachments ≠ [])
    (halt : pc.alt_text_required = true)
    (hfollow : pc.followers_only = true → isByFollower env status_id = true)
    (hparent : pc.parents_only = true → isParentStatus env status_id = true) :
    (shouldReblog env ⟨pc, pc⟩ status_id = true ↔
      ∀ m ∈ (env.statuses status_id).media_attachments, optStrTruthy m.description = true) ∧
    (shouldFavorite env ⟨pc, pc⟩ status_id = true ↔
      ∀ m ∈ (env.statuses status_id).media_attachments, optStrTruthy m.description = true) ∧
    ((∃ m ∈ (env.statuses status_id).media_attachments, optStrTruthy m.description = false) →
      shouldReblog env ⟨pc, pc⟩ status_id = false ∧
      shouldFavorite env ⟨pc, pc⟩ status_id = false ∧
      (decideSpec env pc status_id).deficiency = some DeficiencyKind.MissingAltText) ∧
    (decideSpec env pc status_id).act = shouldReblog env ⟨pc, pc⟩ status_id := by
  have h1 : (pc.followers_only && !isByFollower env status_id) = false := by
    cases hf : pc.followers_only
    · simp
    · simp [hfollow hf]
  have h2 : (pc.parents_only && !isParentStatus env status_id) = false := by
    cases hp : pc.parents_only
    · simp
    · simp [hparent hp]
  have hcm : containsMedia env status_id = true := (containsMedia_eq_true_iff env status_id).2 hmedia
  have hca := containsAltText_eq_all env status_id hmedia
  have h2' : (pc.parents_only && optNatTruthy (env.statuses status_id).in_reply_to_id) = false := by
    rw [← not_isParentStatus]; exact h2
  have hsr : shouldReblog env ⟨pc, pc⟩ status_id = containsAltText env status_id := by
    simp [shouldReblog, h1, h2, hcm, halt]
  have hsf : shouldFavorite env ⟨pc, pc⟩ status_id = containsAltText env status_id := by
    simp [shouldFavorite, h1, h2, hcm, halt]
  have hiff : containsAltText env status_id = true ↔
      ∀ m ∈ (env.statuses status_id).media_attachments, optStrTruthy m.description = true := by
    rw [hca]; exact List.all_eq_true
  refine ⟨hsr ▸ hiff, hsf ▸ hiff, ?_, ?_⟩
  · rintro ⟨m, hmem, hfail⟩
    have hcaf : containsAltText env status_id = false := by
      rw [hca, Bool.eq_false_iff]
      intro hall
      rw [List.all_eq_true] at hall
      exact absurd (hall m hmem) (by simp [hfail])
    refine ⟨hsr.trans hcaf, hsf.trans hcaf, ?_⟩
    simp [decideSpec, h1, h2', hcm, halt, hcaf]
  · rw [hsr]
    cases hcav : containsAltText env status_id <;>
      simp [decideSpec, h1, h2', hcm, halt, hcav]

/-- Witness for C1: a follower's parentless status with one described
and one undescribed attachment is neither reblogged nor favourited, and
the deficiency is missing alt text. -/
theorem alt_text_gate_witness :
    shouldReblog envFollowerBadAlt ⟨⟨true, true, true⟩, ⟨true, true, true⟩⟩ 3 = false ∧
    shouldFavorite envFollowerBadAlt ⟨⟨true, true, true⟩, ⟨true, true, true⟩⟩ 3 = false ∧
    (decideSpec envFollowerBadAlt ⟨true, true, true⟩ 3).deficiency =
      some DeficiencyKind.MissingAltText :=
  (alt_text_gate envFollowerBadAlt ⟨true, true, true⟩ 3 (by decide)
    rfl (fun _ => rfl) (fun _ => rfl)).2.2.1
    ⟨⟨some ""⟩, by decide, rfl⟩

/-! ## Helper lemmas about the local store -/

theorem redisJsonGet_redisJsonSet_self (st : RedisStore) (k : String) (v : Doc) :
    redisJsonGet (redisJsonSet st k v) k = some v := by
  induction st with
  | nil => simp [redisJsonSet, redisJsonGet]
  | cons kv rest ih =>
    by_cases hk : (kv.1 == k) = true
    · simp [redisJsonSet, redisJsonGet, hk]
    · simp [redisJsonSet, redisJsonGet, hk, ih]

/-- **C8**: after `localStoreSet ns id d`, `localStoreGet ns id`
returns exactly `d`; a subsequent `localStoreMerge ns id p` stores the
shallow key-wise overwrite of `p` onto `d` (Python `d.update(p)`), so
`localStoreGet` then returns `dictUpdate d p`; concretely
`{"a": 1}` updated with `{"b": 2}` is `{"a": 1, "b": 2}`. -/
theorem localStore_set_get_merge (st : RedisStore) (ns id : String) (d p : Doc) :
    localStoreGet (localStoreSet st ns id d) ns id = some d ∧
    localStoreMerge (localStoreSet st ns id d) ns id p =
      some (localStoreSet (localStoreSet st ns id d) ns id (dictUpdate d p)) ∧
    localStoreGet (localStoreSet (localStoreSet st ns id d) ns id (dictUpdate d p)) ns id =
      some (dictUpdate d p) ∧
    dictUpdate [("a", 1)] [("b", 2)] = [("a", 1), ("b", 2)] := by
  have hget : redisJsonGet (localStoreSet st ns id d) (ns ++ ":" ++ id) = some d :=
    redisJsonGet_redisJsonSet_self st (ns ++ ":" ++ id) d
  have hget' : redisJsonGet (redisJsonSet st (ns ++ ":" ++ id) d) (ns ++ ":" ++ id) = some d :=
    hget
  refine ⟨hget, ?_, redisJsonGet_redisJsonSet_self _ _ _, by decide⟩
  simp [localStoreMerge, localStoreSet, hget']

/-! ## Helper lemmas about the cursor-based scan -/

theorem scanLoop_spec (pages : List (List String)) :
    ∀ fuel cursor keys, pages.length ≤ fuel + cursor →
      scanLoop pages fuel cursor keys = keys ++ (pages.drop cursor).flatten := by
  intro fuel
  induction fuel with
  | zero =>
    intro cursor keys h
    have hdrop : pages.drop cursor = [] := List.drop_eq_nil_of_le (by omega)
    simp [scanLoop, hdrop]
  | succ fuel ih =>
    intro cursor keys h
    by_cases hc : cursor + 1 < pages.length
    · have hlt : cursor < pages.length := by omega
      have hne : ((cursor + 1 : Nat) == 0) = false := by simp
      simp only [scanLoop, redisScan, hc, if_true, hne, Bool.false_eq_true, if_false]
      rw [ih (cursor + 1) (keys ++ pages.getD cursor []) (by omega)]
      rw [List.drop_eq_getElem_cons hlt, List.flatten_cons, List.getD_eq_getElem pages [] hlt]
      simp [List.append_assoc]
    · simp only [scanLoop, redisScan, hc, if_false, beq_self_eq_true, if_true]
      by_cases hlt : cursor < pages.length
      · have hlen : pages.length = cursor + 1 := by omega
        rw [List.drop_eq_getElem_cons hlt, List.getD_eq_getElem pages [] hlt]
        have hrest : pages.drop (cursor + 1) = [] := List.drop_eq_nil_of_le (by omega)
        simp [hrest]
      · have hdrop : pages.drop cursor = [] := List.drop_eq_nil_of_le (by omega)
        have hnone : pages[cursor]? = none := List.getElem?_eq_none (by omega)
        simp [hdrop, List.getD, hnone]

theorem localStoreKeyGetAll_eq_flatten (pages : List (List String)) :
    localStoreKeyGetAll pages = pages.flatten := by
  unfold localStoreKeyGetAll
  rw [scanLoop_spec pages (pages.length + 1) 0 [] (by omega)]
  simp

theorem append_colon_one_ne_two (ns : String) : ns ++ ":" ++ "1" ≠ ns ++ ":" ++ "2" := by
  intro h
  have h' : (ns ++ ":" ++ "1").data = (ns ++ ":" ++ "2").data := congrArg String.data h
  rw [String.data_append, String.data_append, String.data_append, String.data_append] at h'
  have h1 : (":" : String).data = [':'] := rfl
  have h2 : ("1" : String).data = ['1'] := rfl
  have h3 : ("2" : String).data = ['2'] := rfl
  rw [h1, h2, h3] at h'
  exact absurd (List.append_cancel_left h') (by decide)

theorem matchesKeyPattern_append (key id : String) :
    matchesKeyPattern key (key ++ ":" ++ id) = true := by
  unfold matchesKeyPattern
  rw [show key ++ ":" ++ id = (key ++ ":") ++ id from rfl, String.data_append]
  rw [List.isPrefixOf_iff_prefix]
  exact List.prefix_append _ _

theorem storeKeys_two_sets (ns : String) (d1 d2 : Doc) :
    storeKeys (localStoreSet (localStoreSet [] ns "1" d1) ns "2" d2) =
      [ns ++ ":" ++ "1", ns ++ ":" ++ "2"] := by
  have hne : ((ns ++ ":" ++ "1") == (ns ++ ":" ++ "2")) = false := by
    simpa using append_colon_one_ne_two ns
  simp [localStoreSet, redisJsonSet, storeKeys, hne]

/-- **C6** (amended): after `set(ns,"1",d1)` and `set(ns,"2",d2)`,
`localStoreKeyGetAll ns` returns exactly the two full joined keys
`[ns:1, ns:2]` — not the bare ids — regardless of how many scan pages
the backend's cursor-based scan uses before the cursor returns to its
initial sentinel `0`. -/
theorem localStoreKeyGetAll_two_sets (ns : String) (d1 d2 : Doc)
    (pages : List (List String))
    (hpages : ValidPagination (localStoreSet (localStoreSet [] ns "1" d1) ns "2" d2) ns pages) :
    localStoreKeyGetAll pages = [ns ++ ":" ++ "1", ns ++ ":" ++ "2"] := by
  rw [localStoreKeyGetAll_eq_flatten]
  rw [ValidPagination, storeKeys_two_sets] at hpages
  rw [hpages]
  simp [List.filter, matchesKeyPattern_append ns "1", matchesKeyPattern_append ns "2"]

/-- Witness for C6 (amended) at a two-page backend scan. -/
theorem localStoreKeyGetAll_two_sets_witness :
    localStoreKeyGetAll [["n:1"], ["n:2"]] = ["n" ++ ":" ++ "1", "n" ++ ":" ++ "2"] :=
  localStoreKeyGetAll_two_sets "n" [("a", 1)] [("b", 2)] [["n:1"], ["n:2"]] (by decide)

/-- **C6** counterexample: at namespace `"n"` with ids `"1"` and `"2"`
and a two-page scan, the enumeration returns the full joined keys
`["n:1", "n:2"]`, not the id set `{"1", "2"}`: the id `"1"` is not an
element of the result and the result differs from `["1", "2"]`. -/
theorem localStoreKeyGetAll_two_sets_cex :
    ValidPagination (localStoreSet (localStoreSet [] "n" "1" [("a", 1)]) "n" "2" [("b", 2)])
      "n" [["n:1"], ["n:2"]] ∧
    localStoreKeyGetAll [["n:1"], ["n:2"]] = ["n:1", "n:2"] ∧
    ("1" : String) ∉ localStoreKeyGetAll [["n:1"], ["n:2"]] ∧
    localStoreKeyGetAll [["n:1"], ["n:2"]] ≠ ["1", "2"] := by
  decide

/-! ## Helper lemmas about key splitting -/

theorem pySplitColonAux_no_colon (l : List Char) :
    ∀ acc, ':' ∉ l → pySplitColonAux l acc = [acc.reverse ++ l] := by
  induction l with
  | nil => intro acc _; simp [pySplitColonAux]
  | cons c cs ih =>
    intro acc h
    have hc : ¬c = ':' := fun hc => h (by simp [hc])
    have hcs : ':' ∉ cs := fun hm => h (List.mem_cons_of_mem c hm)
    simp [pySplitColonAux, hc, ih (c :: acc) hcs, List.reverse_cons, List.append_assoc]

theorem pySplitColonAux_split (l1 l2 : List Char) :
    ∀ acc, ':' ∉ l1 →
      pySplitColonAux (l1 ++ ':' :: l2) acc = (acc.reverse ++ l1) :: pySplitColonAux l2 [] := by
  induction l1 with
  | nil => intro acc _; simp [pySplitColonAux]
  | cons c cs ih =>
    intro acc h
    have hc : ¬c = ':' := fun hc => h (by simp [hc])
    have hcs : ':' ∉ cs := fun hm => h (List.mem_cons_of_mem c hm)
    simp [pySplitColonAux, hc, ih (c :: acc) hcs, List.reverse_cons, List.append_assoc]

theorem pySplitColon_join (a b : String) (ha : ':' ∉ a.data) (hb : ':' ∉ b.data) :
    pySplitColon (a ++ ":" ++ b) = [a, b] := by
  unfold pySplitColon
  have hdata : (a ++ ":" ++ b).data = a.data ++ ':' :: b.data := by
    rw [String.data_append, String.data_append]
    simp [show (":" : String).data = [':'] from rfl]
  rw [hdata, pySplitColonAux_split a.data b.data [] ha, pySplitColonAux_no_colon b.data [] hb]
  simp

theorem objectsFromKeys_all_wellformed (st : RedisStore) (ks : List String)
    (h : ∀ k ∈ ks, ∃ a b, ':' ∉ a.data ∧ ':' ∉ b.data ∧ k = a ++ ":" ++ b) :
    objectsFromKeys st ks = some (ks.map (redisJsonGet st)) := by
  induction ks with
  | nil => rfl
  | cons k ks ih =>
    obtain ⟨a, b, ha, hb, hk⟩ := h k (List.mem_cons_self k ks)
    have hrest := ih (fun k' hk' => h k' (List.mem_cons_of_mem k hk'))
    subst hk
    rw [objectsFromKeys, pySplitColon_join a b ha hb]
    simp [hrest, localStoreGet]

theorem storeKeys_map_get (st : RedisStore) (hnd : (storeKeys st).Nodup) :
    (storeKeys st).map (redisJsonGet st) = st.map (fun kv => some kv.2) := by
  induction st with
  | nil => rfl
  | cons kv rest ih =>
    have hkeys : storeKeys (kv :: rest) = kv.1 :: storeKeys rest := rfl
    rw [hkeys] at hnd
    have hnotin : kv.1 ∉ storeKeys rest := (List.nodup_cons.mp hnd).1
    have hnd' : (storeKeys rest).Nodup := (List.nodup_cons.mp hnd).2
    rw [hkeys, List.map_cons, List.map_cons]
    have hhead : redisJsonGet (kv :: rest) kv.1 = some kv.2 := by
      simp [redisJsonGet]
    have htail : (storeKeys rest).map (redisJsonGet (kv :: rest)) =
        (storeKeys rest).map (redisJsonGet rest) := by
      refine List.map_congr_left (fun k' hk' => ?_)
      have hne : (kv.1 == k') = false := by
        simp only [beq_eq_false_iff_ne, ne_eq]
        exact fun he => hnotin (he ▸ hk')
      simp [redisJsonGet, hne]
    rw [hhead, htail, ih hnd']

/-- **C9**: when every stored key is `ns:id` with `ns` and `id` free of
the separator `':'` (and the backend's keys are distinct, as Redis
guarantees), `localStoreObjectGetAll` reconstructs each key by
splitting on the separator and returns every stored document; but for
a namespace containing the separator (here `"a:b"` with id `"c"`), the
two-variable unpacking of the split fails (`ValueError`) and the
enumeration breaks. -/
theorem localStoreObjectGetAll_separator (st : RedisStore)
    (hkeys : ∀ kv ∈ st, ∃ a b, ':' ∉ a.data ∧ ':' ∉ b.data ∧ kv.1 = a ++ ":" ++ b)
    (hnd : (storeKeys st).Nodup) :
    localStoreObjectGetAll st [storeKeys st] = some (st.map (fun kv => some kv.2)) ∧
    localStoreObjectGetAll (localStoreSet [] "a:b" "c" [("x", 1)])
      [storeKeys (localStoreSet [] "a:b" "c" [("x", 1)])] = none := by
  constructor
  · unfold localStoreObjectGetAll
    rw [localStoreKeyGetAll_eq_flatten]
    have hflat : ([storeKeys st] : List (List String)).flatten = storeKeys st := by simp
    rw [hflat]
    have hwf : ∀ k ∈ storeKeys st, ∃ a b, ':' ∉ a.data ∧ ':' ∉ b.data ∧ k = a ++ ":" ++ b := by
      intro k hk
      obtain ⟨kv, hkv, rfl⟩ := List.mem_map.mp hk
      exact hkeys kv hkv
    rw [objectsFromKeys_all_wellformed st (storeKeys st) hwf, storeKeys_map_get st hnd]
  · rfl

/-- Witness for C9 at a one-record store with separator-free namespace
and id. -/
theorem localStoreObjectGetAll_separator_witness :
    localStoreObjectGetAll (localStoreSet [] "n" "1" [("a", 1)])
      [storeKeys (localStoreSet [] "n" "1" [("a", 1)])] =
      some ((localStoreSet [] "n" "1" [("a", 1)]).map (fun kv => some kv.2)) :=
  (localStoreObjectGetAll_separator (localStoreSet [] "n" "1" [("a", 1)])
    (by
      intro kv hkv
      refine ⟨"n", "1", by decide, by decide, ?_⟩
      have : kv = ("n" ++ ":" ++ "1", [("a", 1)]) := by
        simpa [localStoreSet, redisJsonSet] using hkv
      rw [this])
    (by decide)).1

/-! ## Claim theorems: exception boundary, dispatcher, run loop -/

/-- **C4**: for every operation wrapped by `handleMastodonExceptions`,
a failure in one of the eight known Mastodon categories is logged and
the wrapped call returns no result (`None` is propagated, no exception
escapes), while any failure outside the taxonomy is logged and
re-raised to the caller. -/
theorem handleMastodonExceptions_policy {α : Type} (func : Unit → Except PyError α) :
    (∀ e : MastodonError, func () = .error (.mastodon e) →
      handleMastodonExceptions func = .ok none) ∧
    (func () = .error .unclassified →
      handleMastodonExceptions func = .error .unclassified) := by
  constructor
  · intro e he
    unfold handleMastodonExceptions
    rw [he]
  · intro he
    unfold handleMastodonExceptions
    rw [he]

/-- An operation failing with a known remote error. -/
def throwsServerError : Unit → Except PyError Nat :=
  fun _ => .error (.mastodon .serverError)

/-- An operation failing with an error outside the taxonomy. -/
def throwsUnclassified : Unit → Except PyError Nat :=
  fun _ => .error .unclassified

/-- Witness for C4: a known server error is suppressed to `None`, and
an unclassified error is re-raised. -/
theorem handleMastodonExceptions_policy_witness :
    handleMastodonExceptions throwsServerError = .ok none ∧
    handleMastodonExceptions throwsUnclassified = .error .unclassified :=
  ⟨(handleMastodonExceptions_policy throwsServerError).1 .serverError rfl,
   (handleMastodonExceptions_policy throwsUnclassified).2 rfl⟩

/-- Handlers whose mention handler raises a known Mastodon API error
and whose other handlers succeed. -/
def failingMentionHandlers : Handlers where
  processMention := fun _ => .error (.mastodon .apiError)
  processReblog := fun _ => .ok ()
  processFavourite := fun _ => .ok ()
  processFollow := fun _ => .ok ()
  processPoll := fun _ => .ok ()
  processFollowRequest := fun _ => .ok ()
  processUpdate := fun _ => .ok ()

/-- **C3** counterexample: a batch of two mention events whose handler
fails on the first event.  The dispatcher does not catch the per-event
failure: the loop ends at the first event, the second event of the
batch is never handled (its id `2` is not in the handled list), and the
failure surfaces only at the whole-method boundary. -/
theorem handler_failure_aborts_batch_cex :
    dispatchHandled failingMentionHandlers
      [⟨some "mention", 1⟩, ⟨some "mention", 2⟩] = ([], some (.mastodon .apiError)) ∧
    2 ∉ (dispatchHandled failingMentionHandlers
      [⟨some "mention", 1⟩, ⟨some "mention", 2⟩]).1 := by
  constructor
  · rfl
  · decide

/-- **C3** (amended): a failure raised by an event's handler aborts the
processing of all subsequent events in the same batch: the dispatcher
has no per-event catch, the exception propagates out of the `for` loop
(nothing more is handled), and it is dealt with only at the
method-level `handleMastodonExceptions` boundary — suppressed if it is
a known Mastodon category, re-raised otherwise. -/
theorem handler_failure_aborts_batch (h : Handlers) (n : Notification)
    (rest : List Notification) (e : PyError)
    (hfail : dispatchOne h n = .error e) :
    dispatchHandled h (n :: rest) = ([], some e) ∧
    dispatchLoop h (n :: rest) = .error e ∧
    process_notifications h (n :: rest) =
      (match e with
       | .mastodon _ => .ok none
       | .unclassified => .error .unclassified) := by
  have hloop : dispatchLoop h (n :: rest) = .error e := by
    rw [dispatchLoop, hfail]
  refine ⟨?_, hloop, ?_⟩
  · rw [dispatchHandled, hfail]
  · unfold process_notifications handleMastodonExceptions
    rw [hloop]
    cases e <;> rfl

/-- Witness for C3 (amended) at the concrete failing batch. -/
theorem handler_failure_aborts_batch_witness :
    dispatchHandled failingMentionHandlers
      [⟨some "mention", 3⟩, ⟨some "follow", 4⟩] = ([], some (.mastodon .apiError)) ∧
    dispatchLoop failingMentionHandlers
      [⟨some "mention", 3⟩, ⟨some "follow", 4⟩] = .error (.mastodon .apiError) ∧
    process_notifications failingMentionHandlers
      [⟨some "mention", 3⟩, ⟨some "follow", 4⟩] = .ok none :=
  handler_failure_aborts_batch failingMentionHandlers ⟨some "mention", 3⟩
    [⟨some "follow", 4⟩] (.mastodon .apiError) rfl

/-- A configuration assigning a non-positive refresh interval. -/
def refreshZeroOptions : BotOptions := [("refresh_interval", 0)]

/-- **C7** counterexample: the source's `run` sleeps for the literal
`10` regardless of configuration; a configuration carrying a
non-positive refresh interval is accepted at configuration time (no
validation exists) and the loop still sleeps `10` — there is no
configurable interval and no rejection. -/
theorem run_sleep_hardcoded_cex :
    initAcceptsConfig refreshZeroOptions = true ∧
    runIteration refreshZeroOptions =
      [.fetchNotifications, .processNotifications, .sleep 10] ∧
    RunAction.sleep 0 ∉ runIteration refreshZeroOptions := by
  refine ⟨rfl, rfl, ?_⟩
  decide

/-- **C7** (amended): each iteration of `run` fetches, processes, then
suspends for a fixed interval of 10 time units hardcoded at the sleep
call; the interval is not read from the configuration and
configuration-time validation never rejects any value (in particular a
non-positive one). -/
theorem run_sleep_hardcoded (config : BotOptions) :
    runIteration config = [.fetchNotifications, .processNotifications, .sleep 10] ∧
    initAcceptsConfig config = true :=
  ⟨rfl, rfl⟩

end MastoBot
